import Mathlib

/-!
Shallow embedding of `source_microsoft_excel_online/stream_reader.py`.

The Python module is a small Microsoft Graph client: a retrying request
executor (`_request_json`, `_retry_sleep_seconds`, `_extract_graph_error_message`),
a location resolver (`resolve_sharepoint_site_id`,
`resolve_document_library_drive_id`, `resolve_drive_item_id_by_path`,
`resolve_excel_location`), a worksheet fetcher (`get_worksheet_values`) and a
record mapper (`iter_worksheet_records`).

Modelling conventions:
- JSON values are the inductive `JVal`; a parsed JSON object body (the declared
  return type of `_request_json` is `Mapping[str, Any]`) is an association list
  `List (String × JVal)`.
- Python truthiness is modelled explicitly (`JVal.truthy`, option-of-string
  truthiness) wherever the source tests a value with `if x:`.
- The request executor seen by the resolution layer is an abstract function
  from URL and query parameters to `Except String (List (String × JVal))`,
  where the `String` error is the message of a raised
  `MicrosoftGraphExcelError`.  Each resolution function also returns the
  number of executor invocations it performed, so "no network call" claims
  are statable.
- The retry loop of `_request_json` is modelled one level below, over a
  function from attempt number to the outcome of that HTTP attempt.
- Machine floats of the backoff computation are modelled as `ℚ`; the values
  involved in the claims (powers of two, `0.25`, header values) are exact.
-/

/-- A JSON value, as produced by `resp.json()`. -/
inductive JVal where
  | null : JVal
  | bool (b : Bool) : JVal
  | num (q : ℚ) : JVal
  | str (s : String) : JVal
  | arr (xs : List JVal) : JVal
  | obj (fields : List (String × JVal)) : JVal

/-- A parsed JSON object body: the declared result type of `_request_json`
(`Mapping[str, Any]`), modelled as an ordered association list. -/
abbrev JObj := List (String × JVal)

/-- Python `dict.get(k)`: the value of the first binding of `k`, or `None`
(here `none`) when the key is absent. -/
def pyGet (fields : JObj) (k : String) : Option JVal :=
  match fields with
  | [] => none
  | (k2, v) :: rest => if k2 = k then some v else pyGet rest k

/-- Python truthiness of a JSON value (`if x:`). -/
def JVal.truthy : JVal → Bool
  | .null => false
  | .bool b => b
  | .num q => decide (q ≠ 0)
  | .str s => decide (s ≠ "")
  | .arr xs => !xs.isEmpty
  | .obj fs => !fs.isEmpty

/-- Python truthiness of `dict.get(k)`: false for a missing key (`None`) and
for a falsy value. -/
def pyTruthyJ : Option JVal → Bool
  | some v => v.truthy
  | none => false

/-- Python truthiness of an optional string (absent or empty is falsy). -/
def pyTruthyS : Option String → Bool
  | some s => s ≠ ""
  | none => false

/-- The decimal digit character for `n % 10`. -/
def decDigit : Nat → Char
  | 0 => '0'
  | 1 => '1'
  | 2 => '2'
  | 3 => '3'
  | 4 => '4'
  | 5 => '5'
  | 6 => '6'
  | 7 => '7'
  | 8 => '8'
  | _ => '9'

/-- Digit characters (big-endian) of `n`, computed with explicit fuel so the
definition is structurally recursive; `fuel ≥ n` renders faithfully. -/
def natDecimalAux : Nat → Nat → List Char
  | 0, n => [decDigit (n % 10)]
  | fuel + 1, n =>
    if n < 10 then [decDigit n]
    else natDecimalAux fuel (n / 10) ++ [decDigit (n % 10)]

/-- Decimal rendering of a natural number, as Python `str(int)` renders
non-negative integers. -/
def natDecimal (n : Nat) : String :=
  (natDecimalAux n n).asString

/-- Decimal rendering of an integer, as Python `str(int)`. -/
def intDecimal (i : ℤ) : String :=
  if i < 0 then "-" ++ natDecimal i.natAbs else natDecimal i.natAbs

/-- Python `str(x)` on a parsed JSON value.  The rendering of numbers,
arrays and objects is approximated (no theorem below depends on those
cases); strings, `None` and booleans are exact. -/
def JVal.pyStr : JVal → String
  | .null => "None"
  | .bool true => "True"
  | .bool false => "False"
  | .num q => if q.den = 1 then intDecimal q.num else toString q
  | .str s => s
  | .arr _ => "[...]"
  | .obj _ => "\x7b...\x7d"

/-- Python `repr(s)` on a string, as used by `f"...(x!r)"`; quote escaping is
not modelled (no claim depends on it). -/
def pyRepr (s : String) : String := "'" ++ s ++ "'"

/-- Python `s.strip()`: drop surrounding whitespace. -/
def pyStrip (s : String) : String :=
  ((s.data.dropWhile Char.isWhitespace).reverse.dropWhile Char.isWhitespace).reverse.asString

/-- Python `s.startswith(p)`. -/
def pyStartsWith (s p : String) : Bool := p.data.isPrefixOf s.data

/-- Python `sep.join(xs)`. -/
def pyJoin (sep : String) : List String → String
  | [] => ""
  | [x] => x
  | x :: xs => x ++ sep ++ pyJoin sep xs

/-- Substring search over character lists. -/
def containsSub (s sub : List Char) : Bool :=
  match s with
  | [] => sub.isEmpty
  | _ :: t => sub.isPrefixOf s || containsSub t sub

/-- Substring test, as Python `sub in s`. -/
def containsSubstr (s sub : String) : Bool := containsSub s.data sub.data

/-- Python `s.lstrip("/")`: drop every leading slash. -/
def lstripSlashes (s : String) : String :=
  (s.data.dropWhile (fun c => c = '/')).asString

/-- Python `s.rstrip("/")`: drop every trailing slash. -/
def rstripSlashes (s : String) : String :=
  ((s.data.reverse.dropWhile (fun c => c = '/')).reverse).asString

/-- Python `s.strip("/")`: drop leading and trailing slashes. -/
def stripSlashes (s : String) : String := rstripSlashes (lstripSlashes s)

/-- Uppercase hexadecimal digit for `n < 16`. -/
def hexDigit (n : Nat) : Char :=
  if n < 10 then decDigit n
  else if n = 10 then 'A'
  else if n = 11 then 'B'
  else if n = 12 then 'C'
  else if n = 13 then 'D'
  else if n = 14 then 'E'
  else 'F'

/-- The UTF-8 bytes of one character, as byte values. -/
def utf8Bytes (c : Char) : List Nat :=
  let n := c.toNat
  if n < 128 then [n]
  else if n < 2048 then [192 + n / 64, 128 + n % 64]
  else if n < 65536 then [224 + n / 4096, 128 + n / 64 % 64, 128 + n % 64]
  else [240 + n / 262144, 128 + n / 4096 % 64, 128 + n / 64 % 64, 128 + n % 64]

/-- Percent-encoding of one byte, uppercase, as `urllib.parse.quote` emits. -/
def pctByte (b : Nat) : String :=
  "%" ++ String.singleton (hexDigit (b / 16)) ++ String.singleton (hexDigit (b % 16))

/-- Characters `urllib.parse.quote` never encodes. -/
def quoteAlwaysSafe (c : Char) : Bool :=
  c.isAlphanum || c = '_' || c = '.' || c = '-' || c = '~'

/-- `urllib.parse.quote(s, safe=safe)`: percent-encode the UTF-8 bytes of
every character that is neither always-safe nor in `safe`. -/
def pctQuote (s : String) (safe : String) : String :=
  s.data.foldl
    (fun acc c =>
      if quoteAlwaysSafe c || safe.data.contains c then acc ++ String.singleton c
      else acc ++ pyJoin "" ((utf8Bytes c).map pctByte))
    ""

/-- Value of a list of decimal digit characters. -/
def digitsVal (cs : List Char) : Nat :=
  cs.foldl (fun a c => a * 10 + (c.toNat - 48)) 0

/-- Python `float(s)` on the common decimal forms: optional sign, integer
digits, optional fractional part.  Exponent notation, `inf`/`nan` and digit
underscores are not modelled (no claim exercises them). -/
def parseUnsignedFloat (cs : List Char) : Option ℚ :=
  let intPart := cs.takeWhile Char.isDigit
  let rest := cs.dropWhile Char.isDigit
  match rest with
  | [] => if intPart = [] then none else some (digitsVal intPart : ℚ)
  | '.' :: frac =>
    if frac.all Char.isDigit && (intPart ≠ [] || frac ≠ []) then
      some ((digitsVal intPart : ℚ) + (digitsVal frac : ℚ) / (10 ^ frac.length : ℚ))
    else none
  | _ => none

/-- Python `float(s)` (see `parseUnsignedFloat`); `float` strips surrounding
whitespace and accepts a leading sign. -/
def parsePyFloat (s : String) : Option ℚ :=
  match (pyStrip s).data with
  | '+' :: cs => parseUnsignedFloat cs
  | '-' :: cs => (parseUnsignedFloat cs).map (fun q => -q)
  | cs => parseUnsignedFloat cs

/-- An HTTP response as seen by `_request_json`: status code, headers
(`resp.headers.get`), the result of `resp.json()` (`none` when the body does
not parse), and the raw body text. -/
structure HttpResponse where
  status : Nat
  headers : String → Option String
  jsonBody : Option JVal
  text : String

/-- The networking knobs of `MicrosoftGraphExcelClient.__init__`:
`max_retries`, `initial_backoff_seconds`, `max_backoff_seconds`. -/
structure RetryConfig where
  maxRetries : Nat
  initialBackoff : ℚ
  maxBackoff : ℚ

/-- Outcome of one HTTP attempt inside `_request_json`: either
`requests.RequestException` (with its message) or a response. -/
inductive AttemptOutcome where
  | exc (e : String) : AttemptOutcome
  | response (r : HttpResponse) : AttemptOutcome

/-- Result of `_request_json`: the parsed body, a raised
`MicrosoftGraphExcelError` message, or the uncaught decode error raised by
`resp.json()` on a non-JSON success body. -/
inductive ReqResult where
  | ok (j : JVal) : ReqResult
  | err (msg : String) : ReqResult
  | jsonDecodeFailure : ReqResult

/-- Python `a or b` on two optional strings, as used for
`headers.get("request-id") or headers.get("x-ms-request-id")`. -/
def pyOrS (a b : Option String) : Option String :=
  match a with
  | some s => if s = "" then b else some s
  | none => b

/-- The `request_id=` / `client_request_id=` suffix parts appended by
`_extract_graph_error_message` for each truthy header. -/
def headerSuffixes (requestId clientRequestId : Option String) : List String :=
  (match requestId with
    | some s => if s = "" then [] else ["request_id=" ++ s]
    | none => []) ++
  (match clientRequestId with
    | some s => if s = "" then [] else ["client_request_id=" ++ s]
    | none => [])

/-- `MicrosoftGraphExcelClient._extract_graph_error_message`: prefer the
`code - message` pair from a JSON `error` object, otherwise fall back on the
raw body truncated to 2000 characters; either way append the request-id
header suffixes. -/
def extract_graph_error_message (resp : HttpResponse) : String :=
  let requestId := pyOrS (resp.headers "request-id") (resp.headers "x-ms-request-id")
  let clientRequestId := resp.headers "client-request-id"
  let suffix := headerSuffixes requestId clientRequestId
  let jsonMessage : Option String :=
    if containsSubstr ((resp.headers "Content-Type").getD "") "application/json" then
      match resp.jsonBody with
      | some (.obj fields) =>
        match pyGet fields "error" with
        | some (.obj errFields) =>
          let parts := ([pyGet errFields "code", pyGet errFields "message"].filterMap id).filter
            JVal.truthy
          if parts.isEmpty then none
          else some (pyJoin " | "
            (pyJoin " - " (parts.map JVal.pyStr) :: suffix))
        | _ => none
      | _ => none
    else none
  match jsonMessage with
  | some m => m
  | none =>
    let body := pyStrip resp.text
    let body := if 2000 < body.data.length then (body.data.take 2000).asString ++ "…" else body
    if suffix.isEmpty then body
    else body ++ " | " ++ pyJoin " " suffix

/-- `MicrosoftGraphExcelClient._retry_sleep_seconds`: a truthy, parseable
`Retry-After` header yields `max(0.0, float(header))`; otherwise exponential
backoff `min(max_backoff, initial_backoff * 2 ** attempt)` plus jitter
`random.random() * 0.25 * base`, with `random.random()` modelled by the
parameter `u ∈ [0, 1)`. -/
def retry_sleep_seconds (cfg : RetryConfig) (resp : HttpResponse) (attempt : Nat) (u : ℚ) : ℚ :=
  let parsed : Option ℚ :=
    match resp.headers "Retry-After" with
    | some s => if s = "" then none else parsePyFloat s
    | none => none
  match parsed with
  | some v => max 0 v
  | none =>
    let base := min cfg.maxBackoff (cfg.initialBackoff * 2 ^ attempt)
    base + u * (1 / 4) * base

/-- Statuses `_request_json` treats as transient (`429, 500, 502, 503, 504`). -/
def retryableStatuses : List Nat := [429, 500, 502, 503, 504]

/-- The message of the `MicrosoftGraphExcelError` raised on a non-retryable
HTTP error status. -/
def graphApiErrorMsg (status : Nat) (url : String) (resp : HttpResponse) : String :=
  "Graph API error " ++ natDecimal status ++ " for " ++ url ++ ": " ++
    extract_graph_error_message resp

/-- The message of the `MicrosoftGraphExcelError` raised once retries are
exhausted (Python renders an absent `last_error` as `None`). -/
def afterRetriesMsg (url : String) (lastError : Option String) : String :=
  "Graph request failed after retries for " ++ url ++ ": " ++
    (match lastError with | some e => e | none => "None")

/-- The retry loop of `MicrosoftGraphExcelClient._request_json`:
`for attempt in range(max_retries + 1)` iterating over per-attempt outcomes,
with `fuel` the number of loop iterations still available and `lastError` the
last transport error.  Exhausted fuel (or `break` on a transport error at the
final attempt) raises the after-retries error. -/
def request_json_loop (cfg : RetryConfig) (url : String) (attempts : Nat → AttemptOutcome) :
    Nat → Nat → Option String → ReqResult
  | 0, _, lastError => .err (afterRetriesMsg url lastError)
  | fuel + 1, attempt, lastError =>
    match attempts attempt with
    | .exc e =>
      if cfg.maxRetries ≤ attempt then .err (afterRetriesMsg url (some e))
      else request_json_loop cfg url attempts fuel (attempt + 1) (some e)
    | .response r =>
      if r.status < 400 then
        match r.jsonBody with
        | some j => .ok j
        | none => .jsonDecodeFailure
      else if r.status ∈ retryableStatuses ∧ attempt < cfg.maxRetries then
        request_json_loop cfg url attempts fuel (attempt + 1) lastError
      else .err (graphApiErrorMsg r.status url r)

/-- `MicrosoftGraphExcelClient._request_json`: run the retry loop from
attempt 0 with `max_retries + 1` iterations available and no last error. -/
def request_json (cfg : RetryConfig) (url : String) (attempts : Nat → AttemptOutcome) : ReqResult :=
  request_json_loop cfg url attempts (cfg.maxRetries + 1) 0 none

/-- The request executor as seen by the resolution layer: `_request_json`
abstracted as a function from URL and query parameters to either a raised
`MicrosoftGraphExcelError` message or a parsed JSON object body. -/
abbrev Exec := String → List (String × String) → Except String JObj

/-- The error-content inspection of `resolve_sharepoint_site_id`: an error is
"site not found" when its message mentions `Graph API error 404` or a quoted
`itemNotFound` code. -/
def isNotFoundMsg (msg : String) : Bool :=
  containsSubstr msg "Graph API error 404" || containsSubstr msg "\"itemNotFound\""

/-- The URL `resolve_sharepoint_site_id` requests for one candidate path. -/
def siteUrl (base hostname candidate : String) : String :=
  base ++ "/sites/" ++ pctQuote hostname "" ++ ":/" ++ pctQuote candidate "/"

/-- The `last_error` message recorded when a candidate's response carries no
truthy `id`. -/
def emptySiteIdMsg (hostname sitePath candidate : String) : String :=
  "Could not resolve SharePoint site id for hostname=" ++ pyRepr hostname ++
    " site_path=" ++ pyRepr sitePath ++ " (candidate=" ++ pyRepr candidate ++ ")"

/-- The candidate loop of `resolve_sharepoint_site_id`: request each candidate
in order, swallowing only not-found errors and falsy `id` payloads, and
return the first truthy `id` (stringified).  Also counts executor calls. -/
def siteCandidateLoop (exec : Exec) (base normHostname hostname sitePath : String) :
    List String → Option String → Except String String × Nat
  | [], lastError =>
    (match lastError with
      | some e => .error e
      | none => .error ("Could not resolve SharePoint site id for hostname=" ++
          pyRepr hostname ++ " site_path=" ++ pyRepr sitePath), 0)
  | candidate :: rest, lastError =>
    match exec (siteUrl base normHostname candidate) [("$select", "id")] with
    | .error e =>
      if isNotFoundMsg e then
        let r := siteCandidateLoop exec base normHostname hostname sitePath rest (some e)
        (r.1, r.2 + 1)
      else (.error e, 1)
    | .ok payload =>
      match pyGet payload "id" with
      | some v =>
        if v.truthy then (.ok v.pyStr, 1)
        else
          let r := siteCandidateLoop exec base normHostname hostname sitePath rest
            (some (emptySiteIdMsg hostname sitePath candidate))
          (r.1, r.2 + 1)
      | none =>
        let r := siteCandidateLoop exec base normHostname hostname sitePath rest
          (some (emptySiteIdMsg hostname sitePath candidate))
        (r.1, r.2 + 1)

/-- The normalization `resolve_sharepoint_site_id` applies to `site_path`:
surrounding whitespace is stripped, then leading (only) slashes. -/
def normalizeSitePath (sitePath : String) : String := lstripSlashes (pyStrip sitePath)

/-- The ordered candidate paths `resolve_sharepoint_site_id` tries for a
normalized site path. -/
def siteCandidates (n : String) : List String :=
  if pyStartsWith n "sites/" || pyStartsWith n "teams/" then [n]
  else if n.data.contains '/' then [n]
  else ["sites/" ++ n, "teams/" ++ n, n]

/-- `MicrosoftGraphExcelClient.resolve_sharepoint_site_id`. -/
def resolve_sharepoint_site_id (exec : Exec) (base hostname sitePath : String) :
    Except String String × Nat :=
  let normHostname := pyStrip hostname
  if normHostname = "" then (.error "sharepoint_hostname is required", 0)
  else
    let normSitePath := pyStrip sitePath
    if normSitePath = "" then (.error "sharepoint_site_path is required", 0)
    else
      siteCandidateLoop exec base normHostname hostname sitePath
        (siteCandidates (lstripSlashes normSitePath)) none

/-- `MicrosoftGraphExcelClient.resolve_default_drive_id`. -/
def resolve_default_drive_id (exec : Exec) (base siteId : String) :
    Except String String × Nat :=
  match exec (base ++ "/sites/" ++ pctQuote siteId "" ++ "/drive") [("$select", "id")] with
  | .error e => (.error e, 1)
  | .ok payload =>
    match pyGet payload "id" with
    | some v =>
      if v.truthy then (.ok v.pyStr, 1)
      else (.error ("Could not resolve default drive id for site_id=" ++ pyRepr siteId), 1)
    | none => (.error ("Could not resolve default drive id for site_id=" ++ pyRepr siteId), 1)

/-- Membership of a drive's `name` value in the preferred-name set
`"Documents" / "Shared Documents"`. -/
def isPreferredDriveName : Option JVal → Bool
  | some (.str s) => s = "Documents" || s = "Shared Documents"
  | _ => false

/-- The scan over `/sites/(site-id)/drives` entries looking for a dict drive
literally named `Documents` or `Shared Documents` with a truthy `id`. -/
def findPreferredDrive : List JVal → Option JVal
  | [] => none
  | .obj fields :: rest =>
    if isPreferredDriveName (pyGet fields "name") && pyTruthyJ (pyGet fields "id") then
      pyGet fields "id"
    else findPreferredDrive rest
  | _ :: rest => findPreferredDrive rest

/-- `MicrosoftGraphExcelClient.resolve_document_library_drive_id`. -/
def resolve_document_library_drive_id (exec : Exec) (base siteId : String) :
    Except String String × Nat :=
  match exec (base ++ "/sites/" ++ pctQuote siteId "" ++ "/drives") [("$select", "id,name")] with
  | .error e => (.error e, 1)
  | .ok payload =>
    match pyGet payload "value" with
    | some (.arr drives) =>
      (match findPreferredDrive drives with
        | some v => (.ok v.pyStr, 1)
        | none =>
          match drives with
          | [.obj fields] =>
            (match pyGet fields "id" with
              | some v =>
                if v.truthy then (.ok v.pyStr, 1)
                else
                  let r := resolve_default_drive_id exec base siteId
                  (r.1, r.2 + 1)
              | none =>
                let r := resolve_default_drive_id exec base siteId
                (r.1, r.2 + 1))
          | _ =>
            let r := resolve_default_drive_id exec base siteId
            (r.1, r.2 + 1))
    | _ =>
      let r := resolve_default_drive_id exec base siteId
      (r.1, r.2 + 1)

/-- The first (no trailing colon) URL form of `resolve_drive_item_id_by_path`
for an already-normalized item path. -/
def itemBaseUrl (base driveId normPath : String) : String :=
  base ++ "/drives/" ++ pctQuote driveId "" ++ "/root:/" ++ pctQuote normPath "/"

/-- One attempt of the two-URL-form loop in `resolve_drive_item_id_by_path`:
`none` both when the request raises (any `MicrosoftGraphExcelError`) and when
the payload has no truthy `id`. -/
def tryItemForm (exec : Exec) (url : String) : Option String :=
  match exec url [("$select", "id,name")] with
  | .error _ => none
  | .ok payload =>
    match pyGet payload "id" with
    | some v => if v.truthy then some v.pyStr else none
    | none => none

/-- `MicrosoftGraphExcelClient.resolve_drive_item_id_by_path`. -/
def resolve_drive_item_id_by_path (exec : Exec) (base driveId itemPath : String) :
    Except String String × Nat :=
  let normPath := stripSlashes (pyStrip itemPath)
  if normPath = "" then
    (.error "Excel file path is empty; check sharepoint_directory_path and excel_file_name", 0)
  else
    let burl := itemBaseUrl base driveId normPath
    match tryItemForm exec burl with
    | some itemId => (.ok itemId, 1)
    | none =>
      match tryItemForm exec (burl ++ ":") with
      | some itemId => (.ok itemId, 2)
      | none =>
        (.error ("Could not resolve drive item id for drive_id=" ++ pyRepr driveId ++
          " path=" ++ pyRepr itemPath), 2)

/-- The workbook configuration fields `resolve_excel_location` and
`get_worksheet_values` consume.  `worksheet_name` is required (the source
reads `config["worksheet_name"]` unconditionally); every other field is
optional.  Values are strings per the connector's configuration schema. -/
structure WorkbookConfig where
  worksheet_name : String
  range_address : Option String := none
  drive_id : Option String := none
  workbook_item_id : Option String := none
  sharepoint_hostname : Option String := none
  sharepoint_site_path : Option String := none
  sharepoint_directory_path : Option String := none
  excel_file_name : Option String := none

/-- Python `str(config.get(k) or "")` for an optional string field. -/
def orEmpty (o : Option String) : String := o.getD ""

/-- Python `str(config["range_address"]) if config.get("range_address") else None`:
the configured value when truthy, otherwise `None`. -/
def truthyOrNone (o : Option String) : Option String :=
  match o with
  | some s => if s = "" then none else some s
  | none => none

/-- The list comprehension of `resolve_excel_location` collecting the names of
the SharePoint fields whose trimmed value is empty, in declaration order. -/
def sharePointMissing (hostname sitePath directoryPath fileName : String) : List String :=
  (([("sharepoint_hostname", hostname), ("sharepoint_site_path", sitePath),
     ("sharepoint_directory_path", directoryPath), ("excel_file_name", fileName)].filter
      (fun p => p.2 = "")).map Prod.fst)

/-- The single `MicrosoftGraphExcelError` message naming every missing
SharePoint field. -/
def missingConfigMsg (missing : List String) : String :=
  "Missing configuration. Provide either (drive_id + workbook_item_id) or SharePoint fields: " ++
    pyJoin ", " missing

/-- The loop of `resolve_excel_location` stripping one leading document
library segment (`Shared Documents` tried before `Documents`; an exact match
becomes empty, a `root + "/"` prefix is removed, first hit breaks). -/
def stripLibraryRoot (p : String) : String :=
  if p = "Shared Documents" then ""
  else if pyStartsWith p "Shared Documents/" then (p.data.drop "Shared Documents/".data.length).asString
  else if p = "Documents" then ""
  else if pyStartsWith p "Documents/" then (p.data.drop "Documents/".data.length).asString
  else p

/-- `MicrosoftGraphExcelClient.resolve_excel_location`, with its result paired
with the total number of request-executor invocations. -/
structure ExcelLocation where
  drive_id : String
  workbook_item_id : String
  worksheet_name : String
  range_address : Option String := none

/-- The site → drive → item chain at the end of `resolve_excel_location`,
over the already-trimmed SharePoint fields. -/
def resolveLocationChain (exec : Exec) (base hostname sitePath directoryPath fileName
    worksheetName : String) (rangeAddress : Option String) :
    Except String ExcelLocation × Nat :=
  match resolve_sharepoint_site_id exec base hostname sitePath with
  | (.error e, n1) => (.error e, n1)
  | (.ok siteId, n1) =>
    match resolve_document_library_drive_id exec base siteId with
    | (.error e, n2) => (.error e, n1 + n2)
    | (.ok driveId, n2) =>
      let normDirectoryPath := stripLibraryRoot (stripSlashes (pyStrip directoryPath))
      let itemPath :=
        if normDirectoryPath ≠ "" then rstripSlashes normDirectoryPath ++ "/" ++ fileName
        else fileName
      match resolve_drive_item_id_by_path exec base driveId itemPath with
      | (.error e, n3) => (.error e, n1 + n2 + n3)
      | (.ok itemId, n3) =>
        (.ok { drive_id := driveId, workbook_item_id := itemId,
               worksheet_name := worksheetName, range_address := rangeAddress },
         n1 + n2 + n3)

/-- The SharePoint branch of `resolve_excel_location`: trim the four fields,
report every empty one in a single error, otherwise run the chain. -/
def resolveLocationSharePoint (exec : Exec) (base : String) (config : WorkbookConfig) :
    Except String ExcelLocation × Nat :=
  let hostname := pyStrip (orEmpty config.sharepoint_hostname)
  let sitePath := pyStrip (orEmpty config.sharepoint_site_path)
  let directoryPath := pyStrip (orEmpty config.sharepoint_directory_path)
  let fileName := pyStrip (orEmpty config.excel_file_name)
  let missing := sharePointMissing hostname sitePath directoryPath fileName
  if !missing.isEmpty then (.error (missingConfigMsg missing), 0)
  else
    resolveLocationChain exec base hostname sitePath directoryPath fileName
      config.worksheet_name (truthyOrNone config.range_address)

/-- `MicrosoftGraphExcelClient.resolve_excel_location`: direct ids short-cut,
SharePoint field validation, then the site → drive → item chain. -/
def resolve_excel_location (exec : Exec) (base : String) (config : WorkbookConfig) :
    Except String ExcelLocation × Nat :=
  if pyTruthyS config.drive_id && pyTruthyS config.workbook_item_id then
    (.ok { drive_id := orEmpty config.drive_id, workbook_item_id := orEmpty config.workbook_item_id,
           worksheet_name := config.worksheet_name,
           range_address := truthyOrNone config.range_address }, 0)
  else resolveLocationSharePoint exec base config

/-- The URL `get_worksheet_values` requests: the `range(address='…')` form for
a truthy range address (only the address percent-encoded), otherwise the
`usedRange(valuesOnly=true)` form. -/
def worksheetValuesUrl (base driveId itemId worksheetName : String)
    (rangeAddress : Option String) : String :=
  let b := base ++ "/drives/" ++ pctQuote driveId "" ++ "/items/" ++ pctQuote itemId "" ++
    "/workbook/worksheets/" ++ pctQuote worksheetName ""
  match truthyOrNone rangeAddress with
  | some ra => b ++ "/range(address='" ++ pctQuote ra "" ++ "')"
  | none => b ++ "/usedRange(valuesOnly=true)"

/-- The `MicrosoftGraphExcelError` message for a non-list `values` value; the
`type(...)` rendering is approximated (no theorem depends on its text). -/
def JVal.pyTypeName : JVal → String
  | .null => "<class 'NoneType'>"
  | .bool _ => "<class 'bool'>"
  | .num _ => "<class 'float'>"
  | .str _ => "<class 'str'>"
  | .arr _ => "<class 'list'>"
  | .obj _ => "<class 'dict'>"

/-- `MicrosoftGraphExcelClient.get_worksheet_values`: one request, then an
empty matrix for a missing-or-`None` `values`, the list itself when it is a
list, and a raised error otherwise. -/
def get_worksheet_values (exec : Exec) (base driveId itemId worksheetName : String)
    (rangeAddress : Option String) : Except String (List JVal) × Nat :=
  match exec (worksheetValuesUrl base driveId itemId worksheetName rangeAddress)
      [("$select", "values")] with
  | .error e => (.error e, 1)
  | .ok payload =>
    match pyGet payload "values" with
    | none => (.ok [], 1)
    | some .null => (.ok [], 1)
    | some (.arr xs) => (.ok xs, 1)
    | some v =>
      (.error ("Unexpected Graph response: 'values' is not a list (got " ++
        v.pyTypeName ++ ")"), 1)

/-- One record yielded by `iter_worksheet_records`: the 1-based position in
the original matrix and the row's data dict (an ordered association list,
matching Python dict insertion order). -/
structure RowRecord where
  row_number : Nat
  data : List (String × JVal)

/-- The positional column key `f"col_(j)"`. -/
def colKey (j : Nat) : String := "col_" ++ natDecimal j

/-- Python dict insertion: a repeated key overwrites in place, a fresh key
appends. -/
def pyDictInsert (d : List (String × JVal)) (k : String) (v : JVal) : List (String × JVal) :=
  if (d.map Prod.fst).contains k then
    d.map (fun p => if p.1 = k then (p.1, v) else p)
  else d ++ [(k, v)]

/-- The data dict comprehension of `iter_worksheet_records`:
dict comprehension over `range(len(row))` with per-column key fallback. -/
def rowData (cols : List String) (row : List JVal) : List (String × JVal) :=
  (List.range row.length).foldl
    (fun d j =>
      let c := cols.getD j ""
      pyDictInsert d (if c ≠ "" then c else colKey (j + 1)) (row.getD j JVal.null))
    []

/-- The stringification of one header cell:
`str(x).strip() if x is not None else ""`. -/
def headerCell (x : JVal) : String :=
  match x with
  | .null => ""
  | v => pyStrip v.pyStr

/-- The enumerated row loop of `iter_worksheet_records`: skip the header row
index when a header is in use, otherwise yield a record whose columns come
from the header or, without one, are positional. -/
def iterRows (header : Option (List String)) (headerIdx : ℤ) :
    Nat → List (List JVal) → List RowRecord
  | _, [] => []
  | i, row :: rest =>
    if header.isSome ∧ (i : ℤ) = headerIdx then iterRows header headerIdx (i + 1) rest
    else
      { row_number := i + 1,
        data := rowData
          (match header with
            | some cols => cols
            | none => (List.range row.length).map (fun j => colKey (j + 1)))
          row } :: iterRows header headerIdx (i + 1) rest

/-- `iter_worksheet_records(values, header_row=...)` with the lazy generator
materialized as a list. -/
def iter_worksheet_records (values : List (List JVal)) (headerRow : ℤ) : List RowRecord :=
  if values.isEmpty then []
  else
    let headerIdx : ℤ := headerRow - 1
    let header : Option (List String) :=
      if headerRow > 0 ∧ 0 ≤ headerIdx ∧ headerIdx < (values.length : ℤ) then
        some ((values.getD headerIdx.toNat []).map headerCell)
      else none
    iterRows header headerIdx 0 values

/-- The records `iter_worksheet_records` yields when no header is in use:
one per row, with positional column keys and the row's 1-based position. -/
def positionalRecords : Nat → List (List JVal) → List RowRecord
  | _, [] => []
  | i, row :: rest =>
    { row_number := i + 1,
      data := (List.range row.length).map (fun j => (colKey (j + 1), row.getD j JVal.null)) } ::
      positionalRecords (i + 1) rest

/-- A candidate outcome that makes `resolve_sharepoint_site_id` move on to the
next candidate: a swallowed not-found error, or a payload without truthy id. -/
def triesNextCandidate (r : Except String JObj) : Prop :=
  (∃ e, r = .error e ∧ isNotFoundMsg e = true) ∨
  (∃ p, r = .ok p ∧ pyTruthyJ (pyGet p "id") = false)

/-- Executor for the C6 witness: `sites/MySite` is not found, `teams/MySite`
resolves. -/
def c6WitnessExec : Exec := fun url _ =>
  if url = siteUrl "B" "contoso.sharepoint.com" "sites/MySite" then
    .error "Graph API error 404 for u: itemNotFound"
  else if url = siteUrl "B" "contoso.sharepoint.com" "teams/MySite" then
    .ok [("id", JVal.str "SITE1")]
  else .error "unexpected"

/-- Candidate generation as the specification words it (modelled from the
spec: "normalizes the site path by stripping surrounding whitespace and
slashes", i.e. slashes stripped on both sides), for comparison with the
code's normalization that strips leading slashes only. -/
def specSiteCandidates (sitePath : String) : List String :=
  siteCandidates (stripSlashes (pyStrip sitePath))

/-- The two-request tail of `resolve_drive_item_id_by_path`: the outcome once
the first URL form has not produced an id, determined entirely by the
trailing-colon form. -/
def itemSecondFormResult (exec : Exec) (base driveId itemPath normPath : String) :
    Except String String × Nat :=
  match tryItemForm exec (itemBaseUrl base driveId normPath ++ ":") with
  | some itemId => (.ok itemId, 2)
  | none =>
    (.error ("Could not resolve drive item id for drive_id=" ++ pyRepr driveId ++
      " path=" ++ pyRepr itemPath), 2)

/-- Executor for the C1 witness: the site candidate fails with a 403, the
drives listing fails, the first item form fails with a 401 and the
trailing-colon form succeeds. -/
def c1WitnessExec : Exec := fun url _ =>
  if url = siteUrl "B" "h" "c1" then .error "Graph API error 403 for u: Forbidden"
  else if url = "B/sites/S/drives" then .error "Graph API error 500 for u: boom"
  else if url = itemBaseUrl "B" "D" "p.xlsx" then .error "Graph API error 401 for u: Unauthorized"
  else if url = itemBaseUrl "B" "D" "p.xlsx" ++ ":" then .ok [("id", JVal.str "ITEM1")]
  else .error "unexpected"

/-! Support lemmas: decimal rendering is injective, hence positional column
keys are pairwise distinct and the data dict of a positional row is exactly
the positional association list. -/

theorem decDigit_toNat (d : Nat) (h : d < 10) : (decDigit d).toNat = 48 + d := by
  interval_cases d <;> rfl

theorem digitsVal_natDecimalAux (fuel : Nat) :
    ∀ n : Nat, n ≤ fuel → digitsVal (natDecimalAux fuel n) = n := by
  induction fuel with
  | zero =>
    intro n hn
    have hn0 : n = 0 := Nat.le_zero.mp hn
    subst hn0
    rfl
  | succ fuel ih =>
    intro n hn
    by_cases h10 : n < 10
    · simp only [natDecimalAux, if_pos h10, digitsVal, List.foldl_cons, List.foldl_nil,
        decDigit_toNat n h10]
      omega
    · have hpos : 0 < n := by omega
      have hdiv : n / 10 ≤ fuel := by
        have := Nat.div_lt_self hpos (by omega : 1 < 10)
        omega
      simp only [natDecimalAux, if_neg h10, digitsVal, List.foldl_append, List.foldl_cons,
        List.foldl_nil]
      have hmod : n % 10 < 10 := Nat.mod_lt _ (by omega)
      have := ih (n / 10) hdiv
      simp only [digitsVal] at this
      rw [this, decDigit_toNat (n % 10) hmod]
      omega

theorem natDecimal_injective : Function.Injective natDecimal := by
  intro a b h
  have hdata : natDecimalAux a a = natDecimalAux b b := congrArg String.data h
  have ha := digitsVal_natDecimalAux a a le_rfl
  have hb := digitsVal_natDecimalAux b b le_rfl
  rw [← ha, ← hb, hdata]

theorem colKey_injective : Function.Injective colKey := by
  intro i j h
  apply natDecimal_injective
  have h2 := congrArg String.data h
  simp only [colKey, String.data_append] at h2
  exact String.ext (List.append_cancel_left h2)

theorem colKey_ne_empty (n : Nat) : colKey n ≠ "" := by
  intro h
  have := congrArg String.data h
  simp [colKey, String.data_append] at this

theorem getD_map_range_colKey (len j : Nat) (hj : j < len) :
    ((List.range len).map (fun j => colKey (j + 1))).getD j "" = colKey (j + 1) := by
  rw [List.getD_eq_getElem _ _ (by simpa using hj)]
  simp

theorem pyDictInsert_fresh (d : List (String × JVal)) (k : String) (v : JVal)
    (h : ∀ p ∈ d, p.1 ≠ k) : pyDictInsert d k v = d ++ [(k, v)] := by
  unfold pyDictInsert
  rw [if_neg]
  simp only [List.contains_iff_exists_mem_beq, beq_iff_eq, List.mem_map, not_exists]
  rintro a ⟨⟨p, hp, rfl⟩, rfl⟩
  exact h p hp rfl

theorem rowData_positional (row : List JVal) :
    rowData ((List.range row.length).map (fun j => colKey (j + 1))) row =
      (List.range row.length).map (fun j => (colKey (j + 1), row.getD j JVal.null)) := by
  unfold rowData
  have main : ∀ n : Nat, n ≤ row.length →
      (List.range n).foldl
        (fun d j =>
          let c := ((List.range row.length).map (fun j => colKey (j + 1))).getD j ""
          pyDictInsert d (if c ≠ "" then c else colKey (j + 1)) (row.getD j JVal.null)) [] =
      (List.range n).map (fun j => (colKey (j + 1), row.getD j JVal.null)) := by
    intro n
    induction n with
    | zero => intro _; rfl
    | succ n ih =>
      intro hn
      have hlt : n < row.length := hn
      rw [List.range_succ, List.foldl_append, List.map_append, ih (by omega)]
      simp only [List.foldl_cons, List.foldl_nil, List.map_cons, List.map_nil]
      rw [getD_map_range_colKey _ _ hlt, if_pos (colKey_ne_empty (n + 1))]
      apply pyDictInsert_fresh
      intro p hp
      simp only [List.mem_map, List.mem_range] at hp
      obtain ⟨j, hj, rfl⟩ := hp
      intro hk
      have := colKey_injective hk
      omega
  exact main row.length le_rfl

theorem positionalRecords_length : ∀ (l : List (List JVal)) (i : Nat),
    (positionalRecords i l).length = l.length := by
  intro l
  induction l with
  | nil => intro i; rfl
  | cons row rest ih => intro i; simp [positionalRecords, ih]

theorem iterRows_none_eq (a b : ℤ) : ∀ (l : List (List JVal)) (i : Nat),
    iterRows none a i l = iterRows none b i l := by
  intro l
  induction l with
  | nil => intro i; rfl
  | cons row rest ih => intro i; simp [iterRows, ih]

theorem iterRows_none_positional (a : ℤ) : ∀ (l : List (List JVal)) (i : Nat),
    iterRows none a i l = positionalRecords i l := by
  intro l
  induction l with
  | nil => intro i; rfl
  | cons row rest ih =>
    intro i
    simp only [iterRows, Option.isSome_none, Bool.false_eq_true, false_and, if_false,
      positionalRecords, ih, rowData_positional]

theorem iterRows_some_rowNumbers (cols : List String) (hIdx : Nat) :
    ∀ (l : List (List JVal)) (i : Nat),
      (iterRows (some cols) (hIdx : ℤ) i l).map RowRecord.row_number =
        (List.range' (i + 1) l.length).filter (fun n => n ≠ hIdx + 1) := by
  intro l
  induction l with
  | nil => intro i; rfl
  | cons row rest ih =>
    intro i
    rw [List.length_cons, List.range'_succ]
    by_cases hi : i = hIdx
    · rw [show iterRows (some cols) (hIdx : ℤ) i (row :: rest) =
            iterRows (some cols) (hIdx : ℤ) (i + 1) rest from
          if_pos ⟨rfl, by exact_mod_cast hi⟩]
      rw [ih (i + 1), List.filter_cons]
      simp [hi]
    · rw [show iterRows (some cols) (hIdx : ℤ) i (row :: rest) =
            { row_number := i + 1,
              data := rowData cols row } :: iterRows (some cols) (hIdx : ℤ) (i + 1) rest from
          if_neg (by simp [hi])]
      rw [List.map_cons, ih (i + 1), List.filter_cons]
      simp [Nat.succ_ne_succ.mpr hi]

/-- Unfolding of `iter_worksheet_records` with its let-bindings inlined. -/
theorem iter_worksheet_records_eq (values : List (List JVal)) (hr : ℤ) :
    iter_worksheet_records values hr =
      if values.isEmpty then []
      else
        iterRows
          (if hr > 0 ∧ 0 ≤ hr - 1 ∧ hr - 1 < (values.length : ℤ) then
            some ((values.getD (hr - 1).toNat []).map headerCell)
          else none)
          (hr - 1) 0 values := rfl

/-- C2: for a header row `h ≥ 1` and a matrix with at least `h` rows,
`iter_worksheet_records` yields no record with `row_number = h`, the yielded
`row_number`s are exactly the matrix's 1-based row positions with `h` removed
in order, and they are strictly increasing. -/
theorem C2_header_row_numbers (values : List (List JVal)) (h : Nat)
    (h1 : 1 ≤ h) (h2 : h ≤ values.length) :
    (iter_worksheet_records values (h : ℤ)).map RowRecord.row_number =
      (List.range' 1 values.length).filter (fun n => n ≠ h) ∧
    (∀ r ∈ iter_worksheet_records values (h : ℤ), r.row_number ≠ h) ∧
    ((iter_worksheet_records values (h : ℤ)).map RowRecord.row_number).Pairwise (· < ·) := by
  have hmain :
      (iter_worksheet_records values (h : ℤ)).map RowRecord.row_number =
        (List.range' 1 values.length).filter (fun n => n ≠ h) := by
    rw [iter_worksheet_records_eq]
    rw [if_neg (by cases values with
      | nil => simp at h2; omega
      | cons v vs => simp)]
    rw [if_pos (by
      refine ⟨by exact_mod_cast h1, by omega, ?_⟩
      have : (h : ℤ) ≤ (values.length : ℤ) := by exact_mod_cast h2
      omega)]
    rw [show (h : ℤ) - 1 = ((h - 1 : Nat) : ℤ) by omega]
    rw [iterRows_some_rowNumbers _ (h - 1) values 0]
    rw [show h - 1 + 1 = h by omega]
  refine ⟨hmain, ?_, ?_⟩
  · intro r hr heq
    have hm : r.row_number ∈ (iter_worksheet_records values (h : ℤ)).map RowRecord.row_number :=
      List.mem_map_of_mem _ hr
    rw [hmain] at hm
    have := List.of_mem_filter hm
    simp [heq] at this
  · rw [hmain]
    exact (List.pairwise_lt_range' 1 values.length).filter _

/-- Witness for C2 at a concrete matrix: header row 2 of a three-row matrix
is skipped, the remaining row numbers are `[1, 3]`. -/
theorem C2_header_row_numbers_witness :
    (iter_worksheet_records
        [[JVal.num 1], [JVal.str "hdr"], [JVal.num 2]] (2 : ℤ)).map RowRecord.row_number =
      (List.range' 1 3).filter (fun n => n ≠ 2) ∧
    (∀ r ∈ iter_worksheet_records [[JVal.num 1], [JVal.str "hdr"], [JVal.num 2]] (2 : ℤ),
      r.row_number ≠ 2) ∧
    ((iter_worksheet_records
        [[JVal.num 1], [JVal.str "hdr"], [JVal.num 2]] (2 : ℤ)).map RowRecord.row_number).Pairwise
      (· < ·) :=
  C2_header_row_numbers [[JVal.num 1], [JVal.str "hdr"], [JVal.num 2]] 2
    (by omega) (by simp)

/-- C9: with `headerRow = 0` every record is positional: record `i` (0-based)
carries `row_number = i + 1` and data keys exactly `col_1 .. col_w` for its
own row's width `w`, each mapped to the raw cell. -/
theorem C9_positional_records (values : List (List JVal)) :
    iter_worksheet_records values 0 = positionalRecords 0 values := by
  rw [iter_worksheet_records_eq]
  cases values with
  | nil => rfl
  | cons v vs =>
    rw [if_neg (by simp)]
    rw [if_neg (by norm_num)]
    exact iterRows_none_positional _ _ 0

/-- C10: a header row index strictly larger than the row count selects no
header: the output equals the `headerRow = 0` output, one record per row. -/
theorem C10_header_beyond_matrix (values : List (List JVal)) (h : Nat)
    (hne : values ≠ []) (h1 : 1 ≤ h) (hgt : values.length < h) :
    iter_worksheet_records values (h : ℤ) = iter_worksheet_records values 0 ∧
    (iter_worksheet_records values 0).length = values.length := by
  have hiter0 : iter_worksheet_records values 0 = iterRows none (0 - 1) 0 values := by
    rw [iter_worksheet_records_eq]
    rw [if_neg (by simp [hne])]
    rw [if_neg (by norm_num)]
  constructor
  · rw [hiter0]
    rw [iter_worksheet_records_eq]
    rw [if_neg (by simp [hne])]
    rw [if_neg (by
      rintro ⟨-, -, hlt⟩
      have : (values.length : ℤ) < (h : ℤ) := by exact_mod_cast hgt
      omega)]
    exact iterRows_none_eq _ _ values 0
  · rw [hiter0, iterRows_none_positional]
    exact positionalRecords_length values 0

/-- Witness for C10: header row 5 on a two-row matrix behaves as no header. -/
theorem C10_header_beyond_matrix_witness :
    iter_worksheet_records [[JVal.num 1], [JVal.num 2]] (5 : ℤ) =
      iter_worksheet_records [[JVal.num 1], [JVal.num 2]] 0 ∧
    (iter_worksheet_records [[JVal.num 1], [JVal.num 2]] 0).length = 2 :=
  C10_header_beyond_matrix [[JVal.num 1], [JVal.num 2]] 5
    (by simp) (by omega) (by simp)

/-- The candidate loop returns the stringified id of the first candidate whose
request succeeds with a truthy `id`, after one request per earlier candidate. -/
theorem siteCandidateLoop_first_success (exec : Exec) (base nh ho spo : String) :
    ∀ (cs : List String) (k : Nat) (last : Option String) (payload : JObj) (v : JVal),
      k < cs.length →
      (∀ i, i < k →
        triesNextCandidate (exec (siteUrl base nh (cs.getD i "")) [("$select", "id")])) →
      exec (siteUrl base nh (cs.getD k "")) [("$select", "id")] = .ok payload →
      pyGet payload "id" = some v → v.truthy = true →
      siteCandidateLoop exec base nh ho spo cs last = (.ok v.pyStr, k + 1) := by
  intro cs
  induction cs with
  | nil =>
    intro k last payload v hk
    simp at hk
  | cons c rest ih =>
    intro k last payload v hk hbefore hok hid htr
    cases k with
    | zero =>
      simp only [List.getD_cons_zero] at hok
      simp only [siteCandidateLoop, hok, hid, htr, if_pos]
    | succ k =>
      have h0 := hbefore 0 (Nat.succ_pos k)
      simp only [List.getD_cons_zero] at h0
      have hbefore' : ∀ i, i < k →
          triesNextCandidate (exec (siteUrl base nh (rest.getD i "")) [("$select", "id")]) := by
        intro i hi
        have := hbefore (i + 1) (by omega)
        simpa using this
      have hok' : exec (siteUrl base nh (rest.getD k "")) [("$select", "id")] = .ok payload := by
        simpa using hok
      rcases h0 with ⟨e, he, hnf⟩ | ⟨p, hp, hfalsy⟩
      · simp only [siteCandidateLoop, he, hnf, if_pos,
          ih k (some e) payload v (by simpa using hk) hbefore' hok' hid htr]
      · rcases hget : pyGet p "id" with - | w
        · simp only [siteCandidateLoop, hp, hget,
            ih k (some (emptySiteIdMsg ho spo c)) payload v (by simpa using hk) hbefore' hok'
              hid htr]
        · have hw : w.truthy = false := by
            have := hfalsy
            rw [hget] at this
            simpa [pyTruthyJ] using this
          simp only [siteCandidateLoop, hp, hget, hw, Bool.false_eq_true, if_false,
            ih k (some (emptySiteIdMsg ho spo c)) payload v (by simpa using hk) hbefore' hok'
              hid htr]

/-- Unfolding of `resolve_sharepoint_site_id` with its let-bindings inlined. -/
theorem resolve_sharepoint_site_id_eq (exec : Exec) (base hostname sitePath : String) :
    resolve_sharepoint_site_id exec base hostname sitePath =
      if pyStrip hostname = "" then (.error "sharepoint_hostname is required", 0)
      else if pyStrip sitePath = "" then (.error "sharepoint_site_path is required", 0)
      else
        siteCandidateLoop exec base (pyStrip hostname) hostname sitePath
          (siteCandidates (lstripSlashes (pyStrip sitePath))) none := rfl

/-- C6 (amended): with non-empty trimmed hostname and site path, resolution
requests the generated candidates in order and returns the stringified id of
the first candidate answering with a truthy `id`; when the normalized path
(whitespace stripped, then leading slashes only) has no `sites/`/`teams/`
prefix and contains no slash, the candidates are exactly
`sites/{name}`, `teams/{name}`, `{name}` in that order. -/
theorem C6_candidates_first_success (exec : Exec) (base hostname sitePath : String)
    (k : Nat) (payload : JObj) (v : JVal)
    (hh : pyStrip hostname ≠ "") (hs : pyStrip sitePath ≠ "")
    (hk : k < (siteCandidates (normalizeSitePath sitePath)).length)
    (hbefore : ∀ i, i < k →
      triesNextCandidate
        (exec (siteUrl base (pyStrip hostname)
          ((siteCandidates (normalizeSitePath sitePath)).getD i "")) [("$select", "id")]))
    (hok : exec (siteUrl base (pyStrip hostname)
      ((siteCandidates (normalizeSitePath sitePath)).getD k "")) [("$select", "id")] = .ok payload)
    (hid : pyGet payload "id" = some v) (htr : v.truthy = true) :
    resolve_sharepoint_site_id exec base hostname sitePath = (.ok v.pyStr, k + 1) ∧
    ((pyStartsWith (normalizeSitePath sitePath) "sites/" ||
        pyStartsWith (normalizeSitePath sitePath) "teams/") = false →
      (normalizeSitePath sitePath).data.contains '/' = false →
      siteCandidates (normalizeSitePath sitePath) =
        ["sites/" ++ normalizeSitePath sitePath, "teams/" ++ normalizeSitePath sitePath,
          normalizeSitePath sitePath]) := by
  constructor
  · rw [resolve_sharepoint_site_id_eq, if_neg hh, if_neg hs]
    exact siteCandidateLoop_first_success exec base (pyStrip hostname) hostname sitePath
      (siteCandidates (normalizeSitePath sitePath)) k none payload v hk hbefore hok hid htr
  · intro hpre hslash
    unfold siteCandidates
    rw [if_neg (by simp only [hpre]; exact Bool.false_ne_true),
      if_neg (by simp only [hslash]; exact Bool.false_ne_true)]

/-- Witness for C6: a bare site name generates three candidates; the first
404s, the second succeeds, so resolution returns its id after two requests. -/
theorem C6_candidates_first_success_witness :
    resolve_sharepoint_site_id c6WitnessExec "B" "contoso.sharepoint.com" "MySite" =
      (.ok "SITE1", 2) ∧
    ((pyStartsWith (normalizeSitePath "MySite") "sites/" ||
        pyStartsWith (normalizeSitePath "MySite") "teams/") = false →
      (normalizeSitePath "MySite").data.contains '/' = false →
      siteCandidates (normalizeSitePath "MySite") =
        ["sites/" ++ normalizeSitePath "MySite", "teams/" ++ normalizeSitePath "MySite",
          normalizeSitePath "MySite"]) :=
  C6_candidates_first_success c6WitnessExec "B" "contoso.sharepoint.com" "MySite" 1
    [("id", JVal.str "SITE1")] (JVal.str "SITE1")
    (by decide) (by decide) (by decide)
    (by
      intro i hi
      interval_cases i
      exact Or.inl ⟨"Graph API error 404 for u: itemNotFound", rfl, rfl⟩)
    rfl rfl rfl

/-- Counterexample to C6 as stated: for site path `MySite/` the code keeps
the trailing slash, generates the single candidate `MySite/` and issues one
request, while the claim's normalization would generate the three bare-name
candidates. -/
theorem C6_counterexample :
    (resolve_sharepoint_site_id
      (fun _ _ => .error "Graph API error 404 for url: not found") "B"
      "contoso.sharepoint.com" "MySite/").2 = 1 ∧
    siteCandidates (normalizeSitePath "MySite/") = ["MySite/"] ∧
    specSiteCandidates "MySite/" = ["sites/MySite", "teams/MySite", "MySite"] := by
  exact ⟨rfl, rfl, rfl⟩

/-- Unfolding of `resolve_drive_item_id_by_path` with let-bindings inlined. -/
theorem resolve_drive_item_id_by_path_eq (exec : Exec) (base driveId itemPath : String) :
    resolve_drive_item_id_by_path exec base driveId itemPath =
      if stripSlashes (pyStrip itemPath) = "" then
        (.error "Excel file path is empty; check sharepoint_directory_path and excel_file_name",
          0)
      else
        match tryItemForm exec (itemBaseUrl base driveId (stripSlashes (pyStrip itemPath))) with
        | some itemId => (.ok itemId, 1)
        | none =>
          itemSecondFormResult exec base driveId itemPath (stripSlashes (pyStrip itemPath)) :=
  rfl

/-- C1 (amended): during site resolution a non-not-found request error
propagates immediately after one request, and a drive-listing request error
propagates immediately; but in `resolve_drive_item_id_by_path` a request
error on the first URL form — of any class — is swallowed and the
trailing-colon form is attempted, the outcome being entirely that of the
second form. -/
theorem C1_error_propagation (exec : Exec)
    (base nh ho spo siteId driveId itemPath c : String) (rest : List String)
    (last : Option String) (e1 e2 e3 : String)
    (h1 : exec (siteUrl base nh c) [("$select", "id")] = .error e1)
    (h2 : isNotFoundMsg e1 = false)
    (h3 : exec (base ++ "/sites/" ++ pctQuote siteId "" ++ "/drives")
      [("$select", "id,name")] = .error e2)
    (h4 : stripSlashes (pyStrip itemPath) ≠ "")
    (h5 : exec (itemBaseUrl base driveId (stripSlashes (pyStrip itemPath)))
      [("$select", "id,name")] = .error e3) :
    siteCandidateLoop exec base nh ho spo (c :: rest) last = (.error e1, 1) ∧
    resolve_document_library_drive_id exec base siteId = (.error e2, 1) ∧
    resolve_drive_item_id_by_path exec base driveId itemPath =
      itemSecondFormResult exec base driveId itemPath (stripSlashes (pyStrip itemPath)) := by
  refine ⟨?_, ?_, ?_⟩
  · simp only [siteCandidateLoop, h1, h2, Bool.false_eq_true, if_false]
  · simp only [resolve_document_library_drive_id, h3]
  · rw [resolve_drive_item_id_by_path_eq, if_neg h4]
    have hform : tryItemForm exec (itemBaseUrl base driveId (stripSlashes (pyStrip itemPath))) =
        none := by
      simp [tryItemForm, h5]
    rw [hform]

/-- Witness for C1 (amended) at a concrete executor. -/
theorem C1_error_propagation_witness :
    siteCandidateLoop c1WitnessExec "B" "h" "ho" "spo" ["c1", "c2"] none =
      (.error "Graph API error 403 for u: Forbidden", 1) ∧
    resolve_document_library_drive_id c1WitnessExec "B" "S" =
      (.error "Graph API error 500 for u: boom", 1) ∧
    resolve_drive_item_id_by_path c1WitnessExec "B" "D" "p.xlsx" =
      itemSecondFormResult c1WitnessExec "B" "D" "p.xlsx" (stripSlashes (pyStrip "p.xlsx")) :=
  C1_error_propagation c1WitnessExec "B" "h" "ho" "spo" "S" "D" "p.xlsx" "c1" ["c2"] none
    "Graph API error 403 for u: Forbidden" "Graph API error 500 for u: boom"
    "Graph API error 401 for u: Unauthorized"
    rfl (by decide) rfl (by decide) rfl

/-- Counterexample to C1 as stated: a non-404, non-`itemNotFound` error (a
401) on the first URL form of `resolve_drive_item_id_by_path` is not raised;
the trailing-colon form is attempted (two requests) and its id is returned. -/
theorem C1_counterexample :
    resolve_drive_item_id_by_path
      (fun url _ =>
        if url = itemBaseUrl "B" "d" "file.xlsx" then
          .error "Graph API error 401 for u: Unauthorized"
        else .ok [("id", JVal.str "ITEM123")])
      "B" "d" "file.xlsx" = (.ok "ITEM123", 2) ∧
    isNotFoundMsg "Graph API error 401 for u: Unauthorized" = false := by
  exact ⟨rfl, rfl⟩

/-- C3 (amended): with truthy `drive_id` and `workbook_item_id` the location
is assembled directly — drive id, item id and worksheet name copied, the
range address copied when truthy (an empty or absent one becomes `none`) —
and the request executor is invoked zero times, for every executor. -/
theorem C3_direct_ids_no_network (exec : Exec) (base : String) (config : WorkbookConfig)
    (hd : pyTruthyS config.drive_id = true) (hw : pyTruthyS config.workbook_item_id = true) :
    resolve_excel_location exec base config =
      (.ok { drive_id := orEmpty config.drive_id,
             workbook_item_id := orEmpty config.workbook_item_id,
             worksheet_name := config.worksheet_name,
             range_address := truthyOrNone config.range_address }, 0) := by
  unfold resolve_excel_location
  rw [if_pos (by rw [hd, hw]; rfl)]

/-- Witness for C3 (amended) at a concrete configuration. -/
theorem C3_direct_ids_no_network_witness :
    resolve_excel_location (fun _ _ => .error "no network") "B"
      { worksheet_name := "Sheet1", range_address := some "A1:B2",
        drive_id := some "d", workbook_item_id := some "w" } =
      (.ok { drive_id := "d", workbook_item_id := "w", worksheet_name := "Sheet1",
             range_address := some "A1:B2" }, 0) :=
  C3_direct_ids_no_network (fun _ _ => .error "no network") "B"
    { worksheet_name := "Sheet1", range_address := some "A1:B2",
      drive_id := some "d", workbook_item_id := some "w" } (by decide) (by decide)

/-- Counterexample to C3 as stated: with an empty-string `range_address` the
returned location's range address is `none`, not the configured value. -/
theorem C3_counterexample :
    resolve_excel_location (fun _ _ => .error "no network") "B"
      { worksheet_name := "Sheet1", range_address := some "",
        drive_id := some "d1", workbook_item_id := some "w1" } =
      (.ok { drive_id := "d1", workbook_item_id := "w1", worksheet_name := "Sheet1",
             range_address := none }, 0) ∧
    (none : Option String) ≠ some "" := by
  exact ⟨rfl, by decide⟩

/-- C4 (amended): a truthy, parseable `Retry-After` header makes the sleep
exactly `max 0 value` — independent of attempt and backoff configuration —
and otherwise the sleep is `min(max_backoff, initial_backoff * 2 ^ attempt)`
plus the jitter `u * 0.25 * base` for the uniform draw `u`. -/
theorem C4_retry_sleep (cfg : RetryConfig) (resp : HttpResponse) (attempt : Nat) (u : ℚ) :
    (∀ s v, resp.headers "Retry-After" = some s → s ≠ "" → parsePyFloat s = some v →
      retry_sleep_seconds cfg resp attempt u = max 0 v) ∧
    ((∀ s, resp.headers "Retry-After" = some s → s = "" ∨ parsePyFloat s = none) →
      retry_sleep_seconds cfg resp attempt u =
        min cfg.maxBackoff (cfg.initialBackoff * 2 ^ attempt) +
          u * (1 / 4) * min cfg.maxBackoff (cfg.initialBackoff * 2 ^ attempt)) := by
  constructor
  · intro s v hs hne hp
    simp only [retry_sleep_seconds, hs, if_neg hne, hp]
  · intro hcase
    rcases hh : resp.headers "Retry-After" with - | s
    · simp only [retry_sleep_seconds, hh]
    · rcases hcase s hh with he | hp
      · simp only [retry_sleep_seconds, hh, if_pos he]
      · by_cases he : s = ""
        · simp only [retry_sleep_seconds, hh, if_pos he]
        · simp only [retry_sleep_seconds, hh, if_neg he, hp]

/-- Witness for C4 (amended): `Retry-After: 2.5` sleeps exactly `max 0 2.5`
at attempt 3, and without the header attempt 0 with `u = 1/2` sleeps
`base + (1/2) * 0.25 * base`. -/
theorem C4_retry_sleep_witness :
    retry_sleep_seconds ⟨5, 1, 60⟩
      ⟨429, (fun h => if h = "Retry-After" then some "3" else none), none, ""⟩ 3 (1 / 2) =
      max 0 3 ∧
    retry_sleep_seconds ⟨5, 1, 60⟩ ⟨429, (fun _ => none), none, ""⟩ 0 (1 / 2) =
      min (60 : ℚ) (1 * 2 ^ 0) + (1 / 2) * (1 / 4) * min (60 : ℚ) (1 * 2 ^ 0) := by
  constructor
  · exact (C4_retry_sleep ⟨5, 1, 60⟩
      ⟨429, (fun h => if h = "Retry-After" then some "3" else none), none, ""⟩ 3 (1 / 2)).1
      "3" 3 rfl (by decide) rfl
  · exact (C4_retry_sleep ⟨5, 1, 60⟩ ⟨429, (fun _ => none), none, ""⟩ 0 (1 / 2)).2
      (fun s hs => Option.noConfusion hs)

/-- Counterexample to C4 as stated: a parseable negative `Retry-After` value
(`-3`) is clamped to a zero sleep, while the claim's otherwise-branch formula
(backoff plus jitter, here with zero jitter) gives 1. -/
theorem C4_counterexample :
    retry_sleep_seconds ⟨5, 1, 60⟩
      ⟨429, (fun h => if h = "Retry-After" then some "-3" else none), none, ""⟩ 0 0 = 0 ∧
    min (60 : ℚ) (1 * 2 ^ 0) + 0 * (1 / 4) * min (60 : ℚ) (1 * 2 ^ 0) = 1 := by
  constructor
  · rfl
  · norm_num

/-- Unfolding of the validation path of `resolve_excel_location`. -/
theorem resolve_excel_location_missing_eq (exec : Exec) (base : String) (config : WorkbookConfig)
    (hids : (pyTruthyS config.drive_id && pyTruthyS config.workbook_item_id) = false)
    (hmiss : sharePointMissing (pyStrip (orEmpty config.sharepoint_hostname))
      (pyStrip (orEmpty config.sharepoint_site_path))
      (pyStrip (orEmpty config.sharepoint_directory_path))
      (pyStrip (orEmpty config.excel_file_name)) ≠ []) :
    resolve_excel_location exec base config =
      (.error (missingConfigMsg (sharePointMissing (pyStrip (orEmpty config.sharepoint_hostname))
        (pyStrip (orEmpty config.sharepoint_site_path))
        (pyStrip (orEmpty config.sharepoint_directory_path))
        (pyStrip (orEmpty config.excel_file_name)))), 0) := by
  have hne : (sharePointMissing (pyStrip (orEmpty config.sharepoint_hostname))
      (pyStrip (orEmpty config.sharepoint_site_path))
      (pyStrip (orEmpty config.sharepoint_directory_path))
      (pyStrip (orEmpty config.excel_file_name))).isEmpty = false := by
    simpa [List.isEmpty_iff] using hmiss
  unfold resolve_excel_location
  rw [if_neg (by rw [hids]; exact Bool.false_ne_true)]
  unfold resolveLocationSharePoint
  rw [if_pos (by rw [hne]; rfl)]

/-- C5: without the direct-id pair, a single `MicrosoftGraphExcelError` is
raised (before any request) whose message names exactly the SharePoint
fields that are empty after trimming; with all four empty, the list names
all four fields in order. -/
theorem C5_missing_fields (exec : Exec) (base : String) (config : WorkbookConfig)
    (hids : (pyTruthyS config.drive_id && pyTruthyS config.workbook_item_id) = false)
    (hmiss : sharePointMissing (pyStrip (orEmpty config.sharepoint_hostname))
      (pyStrip (orEmpty config.sharepoint_site_path))
      (pyStrip (orEmpty config.sharepoint_directory_path))
      (pyStrip (orEmpty config.excel_file_name)) ≠ []) :
    resolve_excel_location exec base config =
      (.error (missingConfigMsg (sharePointMissing (pyStrip (orEmpty config.sharepoint_hostname))
        (pyStrip (orEmpty config.sharepoint_site_path))
        (pyStrip (orEmpty config.sharepoint_directory_path))
        (pyStrip (orEmpty config.excel_file_name)))), 0) ∧
    (pyStrip (orEmpty config.sharepoint_hostname) = "" →
      pyStrip (orEmpty config.sharepoint_site_path) = "" →
      pyStrip (orEmpty config.sharepoint_directory_path) = "" →
      pyStrip (orEmpty config.excel_file_name) = "" →
      sharePointMissing (pyStrip (orEmpty config.sharepoint_hostname))
        (pyStrip (orEmpty config.sharepoint_site_path))
        (pyStrip (orEmpty config.sharepoint_directory_path))
        (pyStrip (orEmpty config.excel_file_name)) =
        ["sharepoint_hostname", "sharepoint_site_path", "sharepoint_directory_path",
          "excel_file_name"]) := by
  refine ⟨resolve_excel_location_missing_eq exec base config hids hmiss, ?_⟩
  intro e1 e2 e3 e4
  rw [e1, e2, e3, e4]
  rfl

/-- Witness for C5: all four SharePoint fields absent yields the one error
naming all four. -/
theorem C5_missing_fields_witness :
    resolve_excel_location (fun _ _ => .error "no network") "B" { worksheet_name := "S" } =
      (.error (missingConfigMsg (sharePointMissing "" "" "" "")), 0) ∧
    sharePointMissing "" "" "" "" =
      ["sharepoint_hostname", "sharepoint_site_path", "sharepoint_directory_path",
        "excel_file_name"] := by
  have h := C5_missing_fields (fun _ _ => .error "no network") "B" { worksheet_name := "S" }
    (by decide) (by decide)
  exact ⟨h.1, h.2 rfl rfl rfl rfl⟩

/-- C7: one step of the `_request_json` retry loop with a response in hand.
A status below 400 returns the parsed body; a retryable status
(429/500/502/503/504) with retries left moves to the next attempt; a
retryable status with retries exhausted, or any other status at or above
400, raises a `GraphApiError` immediately whose message is built by
`_extract_graph_error_message`. -/
theorem C7_retry_classification (cfg : RetryConfig) (url : String)
    (attempts : Nat → AttemptOutcome) (fuel attempt : Nat) (lastError : Option String)
    (r : HttpResponse) (hresp : attempts attempt = .response r) :
    (∀ j, r.status < 400 → r.jsonBody = some j →
      request_json_loop cfg url attempts (fuel + 1) attempt lastError = .ok j) ∧
    (r.status ∈ retryableStatuses → attempt < cfg.maxRetries →
      request_json_loop cfg url attempts (fuel + 1) attempt lastError =
        request_json_loop cfg url attempts fuel (attempt + 1) lastError) ∧
    (400 ≤ r.status → r.status ∉ retryableStatuses →
      request_json_loop cfg url attempts (fuel + 1) attempt lastError =
        .err (graphApiErrorMsg r.status url r)) ∧
    (r.status ∈ retryableStatuses → cfg.maxRetries ≤ attempt →
      request_json_loop cfg url attempts (fuel + 1) attempt lastError =
        .err (graphApiErrorMsg r.status url r)) := by
  have hge : ∀ s, s ∈ retryableStatuses → 400 ≤ s := by
    intro s hs
    simp only [retryableStatuses, List.mem_cons, List.not_mem_nil, or_false] at hs
    rcases hs with rfl | rfl | rfl | rfl | rfl <;> omega
  refine ⟨?_, ?_, ?_, ?_⟩
  · intro j hlt hbody
    simp only [request_json_loop, hresp, if_pos hlt, hbody]
  · intro hmem hlt
    have h400 : ¬ r.status < 400 := by have := hge r.status hmem; omega
    simp only [request_json_loop, hresp, if_neg h400]
    rw [if_pos (show r.status ∈ retryableStatuses ∧ attempt < cfg.maxRetries from ⟨hmem, hlt⟩)]
  · intro h400 hnotmem
    simp only [request_json_loop, hresp, if_neg (by omega : ¬ r.status < 400)]
    rw [if_neg (show ¬(r.status ∈ retryableStatuses ∧ attempt < cfg.maxRetries) from
      fun hc => hnotmem hc.1)]
  · intro hmem hge'
    have h400 : ¬ r.status < 400 := by have := hge r.status hmem; omega
    simp only [request_json_loop, hresp, if_neg h400]
    rw [if_neg (show ¬(r.status ∈ retryableStatuses ∧ attempt < cfg.maxRetries) from
      fun hc => by omega)]

/-- Witness for C7: a 403 at attempt 0 fails immediately with the extracted
message; a 503 at attempt 0 with retries left steps to attempt 1; a 200 with
a JSON body returns it. -/
theorem C7_retry_classification_witness :
    request_json_loop ⟨2, 1, 60⟩ "u"
      (fun _ => .response ⟨403, fun _ => none, some (.obj []), "forbidden"⟩) 3 0 none =
      .err (graphApiErrorMsg 403 "u" ⟨403, fun _ => none, some (.obj []), "forbidden"⟩) ∧
    request_json_loop ⟨2, 1, 60⟩ "v"
      (fun _ => .response ⟨503, fun _ => none, none, "busy"⟩) 3 0 none =
      request_json_loop ⟨2, 1, 60⟩ "v"
        (fun _ => .response ⟨503, fun _ => none, none, "busy"⟩) 2 1 none ∧
    request_json_loop ⟨2, 1, 60⟩ "w"
      (fun _ => .response ⟨200, fun _ => none, some (.str "body"), ""⟩) 3 0 none =
      .ok (.str "body") := by
  refine ⟨?_, ?_, ?_⟩
  · exact (C7_retry_classification ⟨2, 1, 60⟩ "u"
      (fun _ => .response ⟨403, fun _ => none, some (.obj []), "forbidden"⟩) 2 0 none
      ⟨403, fun _ => none, some (.obj []), "forbidden"⟩ rfl).2.2.1 (by decide) (by decide)
  · exact (C7_retry_classification ⟨2, 1, 60⟩ "v"
      (fun _ => .response ⟨503, fun _ => none, none, "busy"⟩) 2 0 none
      ⟨503, fun _ => none, none, "busy"⟩ rfl).2.1 (by decide) (by decide)
  · exact (C7_retry_classification ⟨2, 1, 60⟩ "w"
      (fun _ => .response ⟨200, fun _ => none, some (.str "body"), ""⟩) 2 0 none
      ⟨200, fun _ => none, some (.str "body"), ""⟩ rfl).1 (.str "body") (by decide) rfl

/-- C8 (amended): for a successful worksheet-values response,
`get_worksheet_values` returns an empty matrix when `values` is absent or
JSON `null`, the array itself when `values` is an array, and raises a
malformed-response error when `values` is present, non-null and not an
array. -/
theorem C8_values_shape (exec : Exec) (base driveId itemId worksheetName : String)
    (rangeAddress : Option String) (payload : JObj)
    (hok : exec (worksheetValuesUrl base driveId itemId worksheetName rangeAddress)
      [("$select", "values")] = .ok payload) :
    (pyGet payload "values" = none →
      get_worksheet_values exec base driveId itemId worksheetName rangeAddress = (.ok [], 1)) ∧
    (pyGet payload "values" = some .null →
      get_worksheet_values exec base driveId itemId worksheetName rangeAddress = (.ok [], 1)) ∧
    (∀ xs, pyGet payload "values" = some (.arr xs) →
      get_worksheet_values exec base driveId itemId worksheetName rangeAddress = (.ok xs, 1)) ∧
    (∀ v, pyGet payload "values" = some v → v ≠ .null → (∀ xs, v ≠ .arr xs) →
      get_worksheet_values exec base driveId itemId worksheetName rangeAddress =
        (.error ("Unexpected Graph response: 'values' is not a list (got " ++
          v.pyTypeName ++ ")"), 1)) := by
  refine ⟨?_, ?_, ?_, ?_⟩
  · intro hv
    simp only [get_worksheet_values, hok, hv]
  · intro hv
    simp only [get_worksheet_values, hok, hv]
  · intro xs hv
    simp only [get_worksheet_values, hok, hv]
  · intro v hv hnull harr
    cases v with
    | null => exact absurd rfl hnull
    | arr xs => exact absurd rfl (harr xs)
    | bool b => simp only [get_worksheet_values, hok, hv, JVal.pyTypeName]
    | num q => simp only [get_worksheet_values, hok, hv, JVal.pyTypeName]
    | str s => simp only [get_worksheet_values, hok, hv, JVal.pyTypeName]
    | obj fs => simp only [get_worksheet_values, hok, hv, JVal.pyTypeName]

/-- Witness for C8 (amended): an array `values` is returned as the matrix. -/
theorem C8_values_shape_witness :
    get_worksheet_values
      (fun _ _ => .ok [("values", JVal.arr [JVal.arr [JVal.num 1]])])
      "B" "d" "i" "Sheet1" none = (.ok [JVal.arr [JVal.num 1]], 1) :=
  (C8_values_shape (fun _ _ => .ok [("values", JVal.arr [JVal.arr [JVal.num 1]])])
    "B" "d" "i" "Sheet1" none [("values", JVal.arr [JVal.arr [JVal.num 1]])]
    rfl).2.2.1 [JVal.arr [JVal.num 1]] rfl

/-- Counterexample to C8 as stated: a response whose `values` key is present
with JSON `null` — present but not an array — yields the empty matrix rather
than a malformed-response error. -/
theorem C8_counterexample :
    get_worksheet_values (fun _ _ => .ok [("values", JVal.null)]) "B" "d" "i" "Sheet1" none =
      (.ok [], 1) ∧
    pyGet [("values", JVal.null)] "values" = some JVal.null := by
  exact ⟨rfl, rfl⟩
